import Mathlib

/-!
Verification of the kserve sample: the HTTP POST-with-retry helper
(`test/e2e/common/http_retry.py`) and the logging-configuration helper
(`python/storage/storage/storage_logging.py`), shallowly embedded in Lean 4.

The retry mechanics themselves (the urllib3 `Retry` adapter and the
`requests` session/URL machinery) are external library code that is not part
of this repository; the parts of the embedding that stand for them are
modelled from the specification and are marked as such in their doc
comments.  Everything else is translated from the repository's source.
-/

/-- Model of Python's `str.startswith`: the candidate prefix's characters
are a prefix of the string's characters. -/
def strStartsWith (s pre : String) : Bool :=
  pre.data.isPrefixOf s.data

/-- Model of Python's `str.endswith`: the candidate suffix's characters
are a suffix of the string's characters. -/
def strEndsWith (s post : String) : Bool :=
  post.data.isSuffixOf s.data

namespace HttpRetry

/-- From `http_retry.py`: `DEFAULT_RETRY_STATUS_CODES = (404, 429, 502, 503, 504)`. -/
def DEFAULT_RETRY_STATUS_CODES : List Nat := [404, 429, 502, 503, 504]

/-- From `http_retry.py`: `DEFAULT_RETRY_TOTAL = 4`. -/
def DEFAULT_RETRY_TOTAL : Nat := 4

/-- From `http_retry.py`: `DEFAULT_RETRY_BACKOFF_FACTOR = 1.0`. -/
def DEFAULT_RETRY_BACKOFF_FACTOR : ℚ := 1

/-- A completed HTTP response: status code and an abstract body handle. -/
structure Response where
  status : Nat
  body : String
deriving Repr, DecidableEq

/-- Outcome of a single request attempt at the transport level: either a
completed HTTP exchange, or a connection-level failure (DNS failure,
connection refused, reset, timeout) carrying its cause. -/
inductive AttemptOutcome where
  | ok (r : Response)
  | netFail (cause : String)
deriving Repr, DecidableEq

/-- A transport assigns to every 0-based attempt index the outcome that
attempt would have.  It stands for the network side of `session.post`. -/
def Transport : Type := Nat → AttemptOutcome

/-- Errors `post_with_retry` can surface instead of a response:
`configurationError` is the `ValueError` raised for contradictory caller
input (spec name: `ConfigurationError`), `networkError` is the connection
error propagated after all attempts failed at the connection level
(spec name: `NetworkError`), carrying the last underlying cause. -/
inductive HttpError where
  | configurationError (msg : String)
  | networkError (cause : String)
deriving Repr, DecidableEq

/-- Observable events of one `post_with_retry` invocation, in order:
session acquisition/release (the `with requests.Session()` block),
request attempts by 0-based index, and backoff waits with their delay. -/
inductive Event where
  | sessionOpen
  | attempt (idx : Nat)
  | wait (delay : ℚ)
  | sessionClose
deriving Repr, DecidableEq

/-- Number of request attempts recorded in a trace. -/
def attemptCount (tr : List Event) : Nat :=
  tr.countP fun e => match e with | .attempt _ => true | _ => false

/-- The backoff delays recorded in a trace, in order. -/
def waitDelays (tr : List Event) : List ℚ :=
  tr.filterMap fun e => match e with | .wait d => some d | _ => none

/-- Modelled from the spec: outcome classification of the retry policy
(`Retry(status_forcelist=retry_status_codes, ...)`, library code absent from
`src/`).  A connection-level failure is retryable regardless of status; a
completed response is retryable exactly when its status code is in the
retry set; anything else is terminal. -/
def isRetryableOutcome (codes : List Nat) : AttemptOutcome → Bool
  | .ok r => codes.contains r.status
  | .netFail _ => true

/-- Modelled from the spec: the terminal result for an outcome once no
retry happens.  A completed response is returned as-is, never converted
into a thrown error (`raise_on_status=False`); a connection-level failure
is surfaced as a `networkError` carrying its cause. -/
def terminalResult : AttemptOutcome → Except HttpError Response
  | .ok r => .ok r
  | .netFail c => .error (.networkError c)

/-- Modelled from the spec: the retry loop run by the transport adapter
(urllib3 `Retry`, absent from `src/`), §4.1 of the spec.  `remaining` is
the number of retries still permitted, `idx` the 0-based index of the
attempt about to be made.  A retryable outcome with retries remaining
waits the geometric backoff delay `backoff_factor * 2^(i-1)` before the
1-indexed retry `i = idx + 1` and tries again; a retryable outcome with
no retries remaining, and any terminal outcome, ends the loop with
`terminalResult`.  Returns the result together with the event trace. -/
def retryLoop (t : Transport) (codes : List Nat) (backoff : ℚ) :
    Nat → Nat → Except HttpError Response × List Event
  | 0, idx => (terminalResult (t idx), [.attempt idx])
  | rem + 1, idx =>
    if isRetryableOutcome codes (t idx) then
      let next := retryLoop t codes backoff rem (idx + 1)
      (next.1, .attempt idx :: .wait (backoff * 2 ^ idx) :: next.2)
    else
      (terminalResult (t idx), [.attempt idx])

/-- Modelled from the spec: URL validation done by the HTTP client when
preparing the request (library code absent from `src/`); a URL is
well-formed when it carries one of the schemes the source mounts the
retrying adapter for (`http://`, `https://`), and a malformed URL fails
before any network attempt. -/
def validUrl (u : String) : Bool :=
  strStartsWith u "http://" || strStartsWith u "https://"

/-- Arguments of `post_with_retry`, from its signature in `http_retry.py`.
Bodies are kept abstract (only presence matters to the checked logic):
`json_data` stands for the structured body, `data` for the raw body. -/
structure RequestArgs where
  url : String
  headers : List (String × String) := []
  json_data : Option String := none
  data : Option String := none
  stream : Bool := false
  timeout : Option ℚ := none
  total_retries : Nat := DEFAULT_RETRY_TOTAL
  backoff_factor : ℚ := DEFAULT_RETRY_BACKOFF_FACTOR
  retry_status_codes : List Nat := DEFAULT_RETRY_STATUS_CODES

/-- Embedding of `post_with_retry` from `http_retry.py`, returning the
result together with the trace of observable events.  Translated from the
source: the mutual-exclusivity check on `json_data` and `data` comes
first and raises before anything else; then a session is opened
(`with requests.Session()`), the request is issued through the retrying
adapter, and the session is released on every exit path of the `with`
block.  The URL check and the retry loop stand for library behaviour and
are modelled from the spec (see `validUrl`, `retryLoop`). -/
def post_with_retry (args : RequestArgs) (t : Transport) :
    Except HttpError Response × List Event :=
  if args.json_data.isSome && args.data.isSome then
    (.error (.configurationError "Only one of json_data or data can be provided."), [])
  else
    let inner :=
      if validUrl args.url then
        retryLoop t args.retry_status_codes args.backoff_factor args.total_retries 0
      else
        (.error (.configurationError "malformed URL"), [])
    (inner.1, .sessionOpen :: inner.2 ++ [.sessionClose])

/-- A transport whose every attempt completes a response with a status in
the retry set. -/
def alwaysRetryStatus (t : Transport) (codes : List Nat) : Prop :=
  ∀ k, ∃ r, t k = .ok r ∧ codes.contains r.status = true

/-- A transport whose every attempt fails at the connection level. -/
def alwaysNetFail (t : Transport) : Prop :=
  ∀ k, ∃ c, t k = .netFail c

/-- Number of backoff waits recorded in a trace. -/
def waitCount (tr : List Event) : Nat :=
  (waitDelays tr).length

end HttpRetry

namespace StorageLogging

/-- A Python value, as far as the logging configuration needs one:
strings, numbers, booleans, dicts and lists. -/
inductive PyVal where
  | str (s : String)
  | nat (n : Nat)
  | bool (b : Bool)
  | dict (entries : List (String × PyVal))
  | list (items : List PyVal)

/-- From `storage_logging.py`: `STORAGE_INITIALIZER_LOGLEVEL = "DEBUG"`. -/
def STORAGE_INITIALIZER_LOGLEVEL : String := "DEBUG"

/-- From `storage_logging.py`: logger name `"storage.initializer"`. -/
def STORAGE_INITIALIZER_LOGGER_NAME : String := "storage.initializer"

/-- From `storage_logging.py`: trace logger name `"kserve.trace"`. -/
def STORAGE_INITIALIZER_TRACE_LOGGER_NAME : String := "kserve.trace"

/-- From `storage_logging.py`: `KSERVE_LOGGER_FORMAT`. -/
def KSERVE_LOGGER_FORMAT : String :=
  "%(asctime)s.%(msecs)03d %(process)s %(name)s %(levelname)s [%(filename)s:%(funcName)s():%(lineno)s] %(message)s"

/-- From `storage_logging.py`: `KSERVE_TRACE_LOGGER_FORMAT`. -/
def KSERVE_TRACE_LOGGER_FORMAT : String :=
  "%(asctime)s.%(msecs)03d %(name)s %(message)s"

/-- From `storage_logging.py`: `KSERVE_LOGGER_DATE_FORMAT = "%Y-%m-%d %H:%M:%S"`. -/
def KSERVE_LOGGER_DATE_FORMAT : String := "%Y-%m-%d %H:%M:%S"

/-- The built-in default logging configuration `KSERVE_LOG_CONFIG` from
`storage_logging.py`, embedded verbatim as a `PyVal` dict. -/
def KSERVE_LOG_CONFIG : PyVal :=
  .dict
    [("version", .nat 1),
     ("disable_existing_loggers", .bool false),
     ("formatters", .dict
       [("kserve", .dict
          [("()", .str "logging.Formatter"),
           ("fmt", .str KSERVE_LOGGER_FORMAT),
           ("datefmt", .str KSERVE_LOGGER_DATE_FORMAT)]),
        ("kserve_trace", .dict
          [("()", .str "logging.Formatter"),
           ("fmt", .str KSERVE_TRACE_LOGGER_FORMAT),
           ("datefmt", .str KSERVE_LOGGER_DATE_FORMAT)])]),
     ("handlers", .dict
       [("kserve", .dict
          [("formatter", .str "kserve"),
           ("class", .str "logging.StreamHandler"),
           ("stream", .str "ext://sys.stderr")]),
        ("kserve_trace", .dict
          [("formatter", .str "kserve_trace"),
           ("class", .str "logging.StreamHandler"),
           ("stream", .str "ext://sys.stderr")])]),
     ("loggers", .dict
       [("kserve", .dict
          [("handlers", .list [.str "kserve"]),
           ("level", .str STORAGE_INITIALIZER_LOGLEVEL),
           ("propagate", .bool false)]),
        ("kserve.trace", .dict
          [("handlers", .list [.str "kserve_trace"]),
           ("level", .str STORAGE_INITIALIZER_LOGLEVEL),
           ("propagate", .bool false)])])]

/-- The argument of `configure_logging`: Python's
`Optional[Union[Dict, str]]` — absent, a dict, or a path string. -/
inductive LogConfigArg where
  | none
  | dict (d : PyVal)
  | str (path : String)

/-- An application of configuration to the process-wide logging system:
either `logging.config.dictConfig` with the given dict, or
`logging.config.fileConfig` with the given path (the source passes
`disable_existing_loggers=False` to the latter). -/
inductive LogAction where
  | dictConfig (d : PyVal)
  | fileConfig (path : String) (disable_existing_loggers : Bool)

/-- The ambient file system and parsers `configure_logging` relies on:
`readFile` stands for `open(...).read()` (`Option.none` when opening
fails), `parseJson` for `json.load`, `parseYaml` for `yaml.safe_load`
(`Option.none` when parsing fails). -/
structure LogEnv where
  readFile : String → Option String
  parseJson : String → Option PyVal
  parseYaml : String → Option PyVal

/-- From `storage_logging.py`, the body of the two file-loading branches
of `configure_logging`: open the file, parse its content, and only on
success apply the parsed dict via `dictConfig`.  A failure to open or to
parse raises (`Except.error`) with nothing applied. -/
def loadAndApply (read : String → Option String) (parse : String → Option PyVal)
    (parseErr : String) (path : String) : Except String Unit × List LogAction :=
  match read path with
  | Option.none => (.error "IOError", [])
  | Option.some content =>
    match parse content with
    | Option.none => (.error parseErr, [])
    | Option.some d => (.ok (), [.dictConfig d])

/-- Embedding of `configure_logging` from `storage_logging.py`.  Returns
whether the call raised and the list of configuration applications it
performed, in order. -/
def configure_logging (env : LogEnv) : LogConfigArg → Except String Unit × List LogAction
  | .none => (.ok (), [.dictConfig KSERVE_LOG_CONFIG])
  | .dict d => (.ok (), [.dictConfig d])
  | .str path =>
    if strEndsWith path ".json" then
      loadAndApply env.readFile env.parseJson "JSONDecodeError" path
    else if strEndsWith path ".yaml" || strEndsWith path ".yml" then
      loadAndApply env.readFile env.parseYaml "YAMLError" path
    else
      (.ok (), [.fileConfig path false])

end StorageLogging

namespace HttpRetry

theorem attemptCount_cons_attempt (i : Nat) (tr : List Event) :
    attemptCount (.attempt i :: tr) = attemptCount tr + 1 := by
  simp [attemptCount, List.countP_cons]

theorem attemptCount_cons_wait (d : ℚ) (tr : List Event) :
    attemptCount (.wait d :: tr) = attemptCount tr := by
  simp [attemptCount, List.countP_cons]

theorem attemptCount_session (tr : List Event) :
    attemptCount (.sessionOpen :: tr ++ [.sessionClose]) = attemptCount tr := by
  simp [attemptCount, List.countP_cons, List.countP_append]

theorem waitDelays_session (tr : List Event) :
    waitDelays (.sessionOpen :: tr ++ [.sessionClose]) = waitDelays tr := by
  simp [waitDelays, List.filterMap_cons, List.filterMap_append]

/-- The retry loop makes at most `remaining + 1` attempts. -/
theorem retryLoop_attemptCount_le (t : Transport) (codes : List Nat) (b : ℚ) :
    ∀ rem idx, attemptCount (retryLoop t codes b rem idx).2 ≤ rem + 1 := by
  intro rem
  induction rem with
  | zero =>
    intro idx
    simp [retryLoop, attemptCount]
  | succ rem ih =>
    intro idx
    by_cases h : isRetryableOutcome codes (t idx) = true
    · simp only [retryLoop, h, if_true]
      rw [attemptCount_cons_attempt, attemptCount_cons_wait]
      exact Nat.add_le_add_right (ih (idx + 1)) 1
    · simp [retryLoop, h, attemptCount]

/-- Against a transport that always completes with a retryable status, the
retry loop makes exactly `remaining + 1` attempts and ends with the last
response, not an error. -/
theorem retryLoop_alwaysRetryStatus (t : Transport) (codes : List Nat) (b : ℚ)
    (h : alwaysRetryStatus t codes) :
    ∀ rem idx, ∃ r, t (idx + rem) = .ok r ∧
      (retryLoop t codes b rem idx).1 = .ok r ∧
      attemptCount (retryLoop t codes b rem idx).2 = rem + 1 := by
  intro rem
  induction rem with
  | zero =>
    intro idx
    obtain ⟨r, hr, _⟩ := h idx
    exact ⟨r, by simpa using hr,
      by simp [retryLoop, hr, terminalResult],
      by simp [retryLoop, attemptCount]⟩
  | succ rem ih =>
    intro idx
    obtain ⟨r0, hr0, hc0⟩ := h idx
    have hret : isRetryableOutcome codes (t idx) = true := by
      rw [hr0]
      exact hc0
    obtain ⟨r, hr, h1, h2⟩ := ih (idx + 1)
    refine ⟨r, ?_, ?_, ?_⟩
    · have : idx + (rem + 1) = idx + 1 + rem := by omega
      rw [this]
      exact hr
    · simpa only [retryLoop, hret, if_true] using h1
    · simp only [retryLoop, hret, if_true]
      rw [attemptCount_cons_attempt, attemptCount_cons_wait, h2]

/-- Against a transport that always fails at the connection level, the
retry loop makes exactly `remaining + 1` attempts and ends with a
`networkError` carrying the last attempt's cause. -/
theorem retryLoop_alwaysNetFail (t : Transport) (codes : List Nat) (b : ℚ)
    (h : alwaysNetFail t) :
    ∀ rem idx, ∃ c, t (idx + rem) = .netFail c ∧
      (retryLoop t codes b rem idx).1 = .error (.networkError c) ∧
      attemptCount (retryLoop t codes b rem idx).2 = rem + 1 := by
  intro rem
  induction rem with
  | zero =>
    intro idx
    obtain ⟨c, hc⟩ := h idx
    exact ⟨c, by simpa using hc,
      by simp [retryLoop, hc, terminalResult],
      by simp [retryLoop, attemptCount]⟩
  | succ rem ih =>
    intro idx
    obtain ⟨c0, hc0⟩ := h idx
    have hret : isRetryableOutcome codes (t idx) = true := by
      simp [isRetryableOutcome, hc0]
    obtain ⟨c, hc, h1, h2⟩ := ih (idx + 1)
    refine ⟨c, ?_, ?_, ?_⟩
    · have : idx + (rem + 1) = idx + 1 + rem := by omega
      rw [this]
      exact hc
    · simpa only [retryLoop, hret, if_true] using h1
    · simp only [retryLoop, hret, if_true]
      rw [attemptCount_cons_attempt, attemptCount_cons_wait, h2]

/-- A first attempt that completes with a non-retryable status ends the
loop at once: one attempt, the response returned as-is. -/
theorem retryLoop_terminal (t : Transport) (codes : List Nat) (b : ℚ)
    (rem idx : Nat) (r : Response)
    (hr : t idx = .ok r) (hc : codes.contains r.status = false) :
    retryLoop t codes b rem idx = (.ok r, [.attempt idx]) := by
  cases rem with
  | zero => simp [retryLoop, hr, terminalResult]
  | succ rem =>
    have hret : isRetryableOutcome codes (AttemptOutcome.ok r) = false := hc
    simp [retryLoop, hr, hret, terminalResult]

/-- The backoff delays recorded by the retry loop are exactly the
geometric sequence: a loop started at attempt `idx` records, for some
number of waits `m`, the delays `b * 2 ^ (idx + 0), …, b * 2 ^ (idx + m - 1)`
in order. -/
theorem retryLoop_waitDelays (t : Transport) (codes : List Nat) (b : ℚ) :
    ∀ rem idx, ∃ m, waitDelays (retryLoop t codes b rem idx).2 =
      (List.range m).map (fun j => b * 2 ^ (idx + j)) := by
  intro rem
  induction rem with
  | zero =>
    intro idx
    exact ⟨0, by simp [retryLoop, waitDelays]⟩
  | succ rem ih =>
    intro idx
    by_cases h : isRetryableOutcome codes (t idx) = true
    · obtain ⟨m, hm⟩ := ih (idx + 1)
      refine ⟨m + 1, ?_⟩
      simp only [retryLoop, h, if_true]
      have hw : waitDelays (Event.attempt idx ::
          Event.wait (b * 2 ^ idx) :: (retryLoop t codes b rem (idx + 1)).2) =
          b * 2 ^ idx :: waitDelays (retryLoop t codes b rem (idx + 1)).2 := by
        simp [waitDelays]
      rw [hw, hm, List.range_succ_eq_map, List.map_cons, List.map_map]
      congr 1
      apply List.map_congr_left
      intro a _
      show b * 2 ^ (idx + 1 + a) = b * 2 ^ (idx + (a + 1))
      have h2 : idx + 1 + a = idx + (a + 1) := by omega
      rw [h2]
    · exact ⟨0, by simp [retryLoop, h, waitDelays]⟩

/-- Every event the retry loop records is an attempt or a wait. -/
theorem retryLoop_events (t : Transport) (codes : List Nat) (b : ℚ) :
    ∀ rem idx, ∀ e ∈ (retryLoop t codes b rem idx).2,
      (∃ i, e = .attempt i) ∨ (∃ d, e = .wait d) := by
  intro rem
  induction rem with
  | zero =>
    intro idx e he
    simp [retryLoop] at he
    exact .inl ⟨idx, he⟩
  | succ rem ih =>
    intro idx e he
    by_cases h : isRetryableOutcome codes (t idx) = true
    · simp only [retryLoop, h, if_true, List.mem_cons] at he
      rcases he with rfl | rfl | he
      · exact .inl ⟨idx, rfl⟩
      · exact .inr ⟨b * 2 ^ idx, rfl⟩
      · exact ih (idx + 1) e he
    · simp [retryLoop, h] at he
      exact .inl ⟨idx, he⟩

/-- Unfolding of `post_with_retry` when the caller input is well-formed:
the session wraps the retry loop. -/
theorem post_with_retry_run (args : RequestArgs) (t : Transport)
    (hbody : (args.json_data.isSome && args.data.isSome) = false)
    (hurl : validUrl args.url = true) :
    post_with_retry args t =
      ((retryLoop t args.retry_status_codes args.backoff_factor args.total_retries 0).1,
       .sessionOpen ::
         (retryLoop t args.retry_status_codes args.backoff_factor args.total_retries 0).2
         ++ [.sessionClose]) := by
  simp [post_with_retry, hbody, hurl]

/-- The delays recorded by a well-formed `post_with_retry` call are an
initial segment of the geometric sequence `backoff_factor * 2 ^ j`. -/
theorem waitDelays_post (args : RequestArgs) (t : Transport)
    (hb : (args.json_data.isSome && args.data.isSome) = false)
    (hu : validUrl args.url = true) :
    ∃ m, waitDelays (post_with_retry args t).2 =
      (List.range m).map (fun j => args.backoff_factor * 2 ^ j) := by
  obtain ⟨m, hm⟩ := retryLoop_waitDelays t args.retry_status_codes
    args.backoff_factor args.total_retries 0
  refine ⟨m, ?_⟩
  have hrun := post_with_retry_run args t hb hu
  simp only [hrun, waitDelays_session]
  rw [hm]
  apply List.map_congr_left
  intro a _
  rw [Nat.zero_add]

theorem waitCount_session (tr : List Event) :
    waitCount (.sessionOpen :: tr ++ [.sessionClose]) = waitCount tr := by
  simp only [waitCount, waitDelays_session]

theorem session_scoped_events (inner : List Event)
    (hin : ∀ e ∈ inner, (∃ i, e = .attempt i) ∨ (∃ d, e = .wait d)) :
    Event.sessionOpen ∉ inner ∧ Event.sessionClose ∉ inner := by
  constructor <;> intro hmem <;>
    rcases hin _ hmem with ⟨i, h⟩ | ⟨d, h⟩ <;> simp at h


/-- C1: for every `total_retries = N ≥ 0`, `post_with_retry` makes at most
`N + 1` attempts; and when the transport returns a status in
`retry_status_codes` on every attempt (and the call is otherwise
well-formed), it makes exactly `N + 1` attempts and returns the last
received response to the caller rather than raising an error. -/
theorem post_with_retry_attempt_bound_and_exhaustion
    (args : RequestArgs) (t : Transport) :
    attemptCount (post_with_retry args t).2 ≤ args.total_retries + 1 ∧
    ((args.json_data.isSome && args.data.isSome) = false →
      validUrl args.url = true →
      alwaysRetryStatus t args.retry_status_codes →
      ∃ r, t args.total_retries = .ok r ∧
        (post_with_retry args t).1 = .ok r ∧
        attemptCount (post_with_retry args t).2 = args.total_retries + 1) := by
  constructor
  · by_cases hb : (args.json_data.isSome && args.data.isSome) = true
    · simp [post_with_retry, hb, attemptCount]
    · have hb2 : (args.json_data.isSome && args.data.isSome) = false := by
        simpa using hb
      by_cases hu : validUrl args.url = true
      · have hrun := post_with_retry_run args t hb2 hu
        simp only [hrun, attemptCount_session]
        exact retryLoop_attemptCount_le t args.retry_status_codes
          args.backoff_factor args.total_retries 0
      · simp [post_with_retry, hb, hu, attemptCount]
  · intro hb hu hret
    obtain ⟨r, hr, h1, h2⟩ := retryLoop_alwaysRetryStatus t args.retry_status_codes
      args.backoff_factor hret args.total_retries 0
    have hrun := post_with_retry_run args t hb hu
    refine ⟨r, by simpa using hr, ?_, ?_⟩
    · rw [hrun]
      exact h1
    · simp only [hrun, attemptCount_session]
      exact h2

/-- C1 witness: with `total_retries = 2` and a transport that always
completes with status 503 (in the default retry set), exactly 3 attempts
are made and the last 503 response is returned. -/
theorem post_with_retry_attempt_bound_and_exhaustion_witness :
    ∃ r, (fun _ => AttemptOutcome.ok ⟨503, "u"⟩ : Transport) 2 = .ok r ∧
      (post_with_retry { url := "http://svc", total_retries := 2 }
        (fun _ => .ok ⟨503, "u"⟩)).1 = .ok r ∧
      attemptCount (post_with_retry { url := "http://svc", total_retries := 2 }
        (fun _ => .ok ⟨503, "u"⟩)).2 = 2 + 1 :=
  (post_with_retry_attempt_bound_and_exhaustion
      { url := "http://svc", total_retries := 2 } (fun _ => .ok ⟨503, "u"⟩)).2
    (by rfl) (by rfl) (fun k => ⟨⟨503, "u"⟩, rfl, by rfl⟩)

/-- C2: for a well-formed call, the backoff delays recorded by
`post_with_retry` are exactly `backoff_factor * 2 ^ (i - 1)` for the
1-indexed retries `i = 1, 2, …` in order; in particular the delay before
the first retry equals `backoff_factor` itself, not zero. -/
theorem post_with_retry_geometric_backoff
    (args : RequestArgs) (t : Transport)
    (hb : (args.json_data.isSome && args.data.isSome) = false)
    (hu : validUrl args.url = true) :
    waitDelays (post_with_retry args t).2 =
      (List.range (waitCount (post_with_retry args t).2)).map
        (fun j => args.backoff_factor * 2 ^ j) ∧
    (∀ d, (waitDelays (post_with_retry args t).2).head? = some d →
      d = args.backoff_factor) := by
  obtain ⟨m, hm⟩ := waitDelays_post args t hb hu
  have hcount : waitCount (post_with_retry args t).2 = m := by
    simp [waitCount, hm]
  constructor
  · rw [hcount, hm]
  · intro d hd
    rw [hm] at hd
    cases m with
    | zero => simp at hd
    | succ k =>
      rw [List.range_succ_eq_map, List.map_cons, List.head?_cons,
        Option.some_inj] at hd
      rw [← hd, pow_zero, mul_one]

/-- C2 witness: `total_retries = 2`, `backoff_factor = 1`, transport always
503 — the two recorded delays are `[1, 2]`, and the first is the backoff
factor itself. -/
theorem post_with_retry_geometric_backoff_witness :
    waitDelays (post_with_retry { url := "http://svc", total_retries := 2 }
        (fun _ => .ok ⟨503, "u"⟩)).2 =
      (List.range (waitCount (post_with_retry { url := "http://svc", total_retries := 2 }
        (fun _ => .ok ⟨503, "u"⟩)).2)).map (fun j => (1 : ℚ) * 2 ^ j) ∧
    (∀ d, (waitDelays (post_with_retry { url := "http://svc", total_retries := 2 }
        (fun _ => .ok ⟨503, "u"⟩)).2).head? = some d → d = (1 : ℚ)) :=
  post_with_retry_geometric_backoff
    { url := "http://svc", total_retries := 2 } (fun _ => .ok ⟨503, "u"⟩)
    (by rfl) (by rfl)

/-- C3: when the transport completes the first attempt with a status not
in `retry_status_codes`, a well-formed `post_with_retry` call makes
exactly one attempt and returns that response as-is — it never raises
because of the status code. -/
theorem post_with_retry_terminal_status
    (args : RequestArgs) (t : Transport) (r : Response)
    (hb : (args.json_data.isSome && args.data.isSome) = false)
    (hu : validUrl args.url = true)
    (h0 : t 0 = .ok r)
    (hc : args.retry_status_codes.contains r.status = false) :
    (post_with_retry args t).1 = .ok r ∧
    attemptCount (post_with_retry args t).2 = 1 := by
  have hterm := retryLoop_terminal t args.retry_status_codes
    args.backoff_factor args.total_retries 0 r h0 hc
  have hrun := post_with_retry_run args t hb hu
  constructor
  · rw [hrun, hterm]
  · simp only [hrun, attemptCount_session, hterm]
    simp [attemptCount]

/-- C3 witness: a transport answering 400 (not in the default retry set)
on the first attempt yields that 400 response after exactly one attempt. -/
theorem post_with_retry_terminal_status_witness :
    (post_with_retry { url := "http://svc" } (fun _ => .ok ⟨400, "bad"⟩)).1 =
      .ok ⟨400, "bad"⟩ ∧
    attemptCount (post_with_retry { url := "http://svc" }
      (fun _ => .ok ⟨400, "bad"⟩)).2 = 1 :=
  post_with_retry_terminal_status { url := "http://svc" }
    (fun _ => .ok ⟨400, "bad"⟩) ⟨400, "bad"⟩ (by rfl) (by rfl) rfl (by rfl)

/-- C4: when both `json_data` and `data` are non-`None`, `post_with_retry`
raises the configuration `ValueError` synchronously, before any I/O, and
zero network attempts are made, whatever the other arguments. -/
theorem post_with_retry_body_conflict
    (args : RequestArgs) (t : Transport)
    (hj : args.json_data.isSome = true) (hd : args.data.isSome = true) :
    post_with_retry args t =
      (.error (.configurationError "Only one of json_data or data can be provided."),
        []) ∧
    attemptCount (post_with_retry args t).2 = 0 := by
  constructor <;> simp [post_with_retry, hj, hd, attemptCount]

/-- C4 witness: both bodies set — the call is the configuration error with
an empty trace and zero attempts. -/
theorem post_with_retry_body_conflict_witness :
    post_with_retry { url := "http://svc", json_data := some "j", data := some "r" }
        (fun _ => .ok ⟨200, "x"⟩) =
      (.error (.configurationError "Only one of json_data or data can be provided."),
        []) ∧
    attemptCount (post_with_retry
      { url := "http://svc", json_data := some "j", data := some "r" }
      (fun _ => .ok ⟨200, "x"⟩)).2 = 0 :=
  post_with_retry_body_conflict
    { url := "http://svc", json_data := some "j", data := some "r" }
    (fun _ => .ok ⟨200, "x"⟩) rfl rfl

/-- C5: a call with a malformed URL fails at once with a configuration
error and makes no network attempt. -/
theorem post_with_retry_malformed_url
    (args : RequestArgs) (t : Transport)
    (hu : validUrl args.url = false) :
    (∃ msg, (post_with_retry args t).1 = .error (.configurationError msg)) ∧
    attemptCount (post_with_retry args t).2 = 0 := by
  by_cases hb : (args.json_data.isSome && args.data.isSome) = true
  · exact ⟨⟨"Only one of json_data or data can be provided.",
      by simp [post_with_retry, hb]⟩, by simp [post_with_retry, hb, attemptCount]⟩
  · refine ⟨⟨"malformed URL", ?_⟩, ?_⟩ <;>
      simp [post_with_retry, hb, hu, attemptCount]

/-- C5 witness: a URL without a scheme is rejected as a configuration
error with zero attempts. -/
theorem post_with_retry_malformed_url_witness :
    (∃ msg, (post_with_retry { url := "not a url" } (fun _ => .ok ⟨200, "x"⟩)).1 =
      .error (.configurationError msg)) ∧
    attemptCount (post_with_retry { url := "not a url" }
      (fun _ => .ok ⟨200, "x"⟩)).2 = 0 :=
  post_with_retry_malformed_url { url := "not a url" }
    (fun _ => .ok ⟨200, "x"⟩) (by rfl)

/-- C6: when every permitted attempt fails at the connection level, a
well-formed `post_with_retry` call surfaces a `networkError` — an error,
not a response — carrying the last underlying cause; with
`total_retries = 0` this happens after exactly one attempt and zero
backoff waits. -/
theorem post_with_retry_network_exhaustion
    (args : RequestArgs) (t : Transport)
    (hb : (args.json_data.isSome && args.data.isSome) = false)
    (hu : validUrl args.url = true)
    (hn : alwaysNetFail t) :
    (∃ c, t args.total_retries = .netFail c ∧
      (post_with_retry args t).1 = .error (.networkError c)) ∧
    (args.total_retries = 0 →
      attemptCount (post_with_retry args t).2 = 1 ∧
      waitCount (post_with_retry args t).2 = 0) := by
  obtain ⟨c, hc, h1, h2⟩ := retryLoop_alwaysNetFail t args.retry_status_codes
    args.backoff_factor hn args.total_retries 0
  have hrun := post_with_retry_run args t hb hu
  refine ⟨⟨c, by simpa using hc, by rw [hrun]; exact h1⟩, ?_⟩
  intro h0
  constructor
  · simp only [hrun, attemptCount_session]
    rw [h0] at h2 ⊢
    exact h2
  · simp only [hrun, waitCount_session]
    rw [h0]
    simp [retryLoop, waitCount, waitDelays]

/-- C6 witness: `total_retries = 0` and a connection-refused transport —
the result is the network error with that cause, one attempt, no waits. -/
theorem post_with_retry_network_exhaustion_witness :
    (∃ c, (fun _ => AttemptOutcome.netFail "connection refused" : Transport) 0 =
        .netFail c ∧
      (post_with_retry { url := "http://svc", total_retries := 0 }
        (fun _ => .netFail "connection refused")).1 = .error (.networkError c)) ∧
    ((0 : Nat) = 0 →
      attemptCount (post_with_retry { url := "http://svc", total_retries := 0 }
        (fun _ => .netFail "connection refused")).2 = 1 ∧
      waitCount (post_with_retry { url := "http://svc", total_retries := 0 }
        (fun _ => .netFail "connection refused")).2 = 0) :=
  post_with_retry_network_exhaustion { url := "http://svc", total_retries := 0 }
    (fun _ => .netFail "connection refused") (by rfl) (by rfl)
    (fun k => ⟨"connection refused", rfl⟩)

theorem count_session_trace (mid : List Event)
    (hopen : Event.sessionOpen ∉ mid) (hclose : Event.sessionClose ∉ mid) :
    (Event.sessionOpen :: mid ++ [Event.sessionClose]).count .sessionOpen =
      (Event.sessionOpen :: mid ++ [Event.sessionClose]).count .sessionClose := by
  simp [List.count_cons, List.count_append,
    List.count_eq_zero.mpr hopen, List.count_eq_zero.mpr hclose]

/-- C7: on every exit path of `post_with_retry` the session is released:
either no session is ever opened (the early configuration error), or the
trace is exactly one `sessionOpen`, followed only by attempts and waits,
closed by a final `sessionClose`; open and close counts always match, so
no session state survives the invocation. -/
theorem post_with_retry_session_released (args : RequestArgs) (t : Transport) :
    ((post_with_retry args t).2.count .sessionOpen =
      (post_with_retry args t).2.count .sessionClose) ∧
    ((post_with_retry args t).2 = [] ∨
      ∃ mid, (post_with_retry args t).2 = .sessionOpen :: mid ++ [.sessionClose] ∧
        Event.sessionOpen ∉ mid ∧ Event.sessionClose ∉ mid) := by
  by_cases hb : (args.json_data.isSome && args.data.isSome) = true
  · constructor
    · simp [post_with_retry, hb]
    · left
      simp [post_with_retry, hb]
  · have hb2 : (args.json_data.isSome && args.data.isSome) = false := by
      simpa using hb
    by_cases hu : validUrl args.url = true
    · have hrun := post_with_retry_run args t hb2 hu
      have hev := retryLoop_events t args.retry_status_codes args.backoff_factor
        args.total_retries 0
      obtain ⟨hopen, hclose⟩ := session_scoped_events _ hev
      constructor
      · rw [hrun]
        exact count_session_trace _ hopen hclose
      · right
        exact ⟨_, by rw [hrun], hopen, hclose⟩
    · have htr : (post_with_retry args t).2 = [.sessionOpen, .sessionClose] := by
        simp [post_with_retry, hb, hu]
      constructor
      · rw [htr]
        exact count_session_trace [] (by simp) (by simp)
      · right
        exact ⟨[], htr, by simp, by simp⟩

/-- C7 witness: a concrete successful call — its trace opens one session,
closes it last, and the counts match. -/
theorem post_with_retry_session_released_witness :
    ((post_with_retry { url := "http://svc" } (fun _ => .ok ⟨200, "x"⟩)).2.count
        .sessionOpen =
      (post_with_retry { url := "http://svc" } (fun _ => .ok ⟨200, "x"⟩)).2.count
        .sessionClose) ∧
    ((post_with_retry { url := "http://svc" } (fun _ => .ok ⟨200, "x"⟩)).2 = [] ∨
      ∃ mid, (post_with_retry { url := "http://svc" } (fun _ => .ok ⟨200, "x"⟩)).2 =
          .sessionOpen :: mid ++ [.sessionClose] ∧
        Event.sessionOpen ∉ mid ∧ Event.sessionClose ∉ mid) :=
  post_with_retry_session_released { url := "http://svc" } (fun _ => .ok ⟨200, "x"⟩)

/-- C9: the mutual-exclusivity check on `json_data` and `data` is the
first observable action: with both set, the call produces the body
conflict error with a completely empty trace — no session is constructed
and no attempt made — regardless of every other argument, including a
malformed URL (the body error takes precedence). -/
theorem post_with_retry_body_check_first
    (args : RequestArgs) (t : Transport)
    (hj : args.json_data.isSome = true) (hd : args.data.isSome = true) :
    (post_with_retry args t).2 = [] ∧
    (post_with_retry args t).1 =
      .error (.configurationError "Only one of json_data or data can be provided.") := by
  constructor <;> simp [post_with_retry, hj, hd]

/-- C9 witness: both bodies set and the URL malformed — the body conflict
error still wins and the trace is empty. -/
theorem post_with_retry_body_check_first_witness :
    (post_with_retry { url := "::bad::", json_data := some "j", data := some "r" }
      (fun _ => .ok ⟨200, "x"⟩)).2 = [] ∧
    (post_with_retry { url := "::bad::", json_data := some "j", data := some "r" }
      (fun _ => .ok ⟨200, "x"⟩)).1 =
      .error (.configurationError "Only one of json_data or data can be provided.") :=
  post_with_retry_body_check_first
    { url := "::bad::", json_data := some "j", data := some "r" }
    (fun _ => .ok ⟨200, "x"⟩) rfl rfl

end HttpRetry

namespace StorageLogging

theorem strEndsWith_iff_suffix {s post : String} :
    strEndsWith s post = true ↔ post.data <:+ s.data := by
  simp [strEndsWith, List.isSuffixOf_iff_suffix]

/-- A path ending in `".yaml"` cannot also end in `".json"`: equal-length
suffixes of the same string coincide. -/
theorem yaml_not_json {s : String} (h : strEndsWith s ".yaml" = true) :
    strEndsWith s ".json" = false := by
  by_contra hc
  rw [Bool.not_eq_false, strEndsWith_iff_suffix] at hc
  rw [strEndsWith_iff_suffix] at h
  have hsub : (".yaml".data : List Char) <:+ ".json".data :=
    List.suffix_of_suffix_length_le h hc (by decide)
  exact absurd hsub (by decide)

/-- A path ending in `".yml"` cannot also end in `".json"`: the 4-character
suffix of a string ending in `".json"` is `"json"`. -/
theorem yml_not_json {s : String} (h : strEndsWith s ".yml" = true) :
    strEndsWith s ".json" = false := by
  by_contra hc
  rw [Bool.not_eq_false, strEndsWith_iff_suffix] at hc
  rw [strEndsWith_iff_suffix] at h
  have hsub : (".yml".data : List Char) <:+ ".json".data :=
    List.suffix_of_suffix_length_le h hc (by decide)
  exact absurd hsub (by decide)

/-- A failed open or a failed parse makes the load-and-apply step raise
with no configuration applied. -/
theorem loadAndApply_fail (read : String → Option String)
    (parse : String → Option PyVal) (parseErr p : String)
    (h : (read p).bind parse = Option.none) :
    ∃ e, loadAndApply read parse parseErr p = (.error e, []) := by
  cases hr : read p with
  | none => exact ⟨"IOError", by simp [loadAndApply, hr]⟩
  | some c =>
    rw [hr, Option.some_bind] at h
    exact ⟨parseErr, by simp [loadAndApply, hr, h]⟩

/-- C8: `configure_logging` dispatches exactly as specified — `None`
applies the built-in default config; a dict is applied directly; a path
ending in `".json"` is loaded and parsed as JSON and the result applied;
a path ending in `".yaml"` or `".yml"` is loaded and parsed as YAML and
the result applied; any other path string is applied via the legacy
`fileConfig` format. -/
theorem configure_logging_dispatch (env : LogEnv) :
    configure_logging env .none = (.ok (), [.dictConfig KSERVE_LOG_CONFIG]) ∧
    (∀ d, configure_logging env (.dict d) = (.ok (), [.dictConfig d])) ∧
    (∀ p, strEndsWith p ".json" = true →
      configure_logging env (.str p) =
        loadAndApply env.readFile env.parseJson "JSONDecodeError" p) ∧
    (∀ p, strEndsWith p ".yaml" = true ∨ strEndsWith p ".yml" = true →
      configure_logging env (.str p) =
        loadAndApply env.readFile env.parseYaml "YAMLError" p) ∧
    (∀ p, strEndsWith p ".json" = false → strEndsWith p ".yaml" = false →
      strEndsWith p ".yml" = false →
      configure_logging env (.str p) = (.ok (), [.fileConfig p false])) := by
  refine ⟨rfl, fun d => rfl, fun p hp => ?_, fun p hp => ?_, fun p h1 h2 h3 => ?_⟩
  · simp [configure_logging, hp]
  · have hj : strEndsWith p ".json" = false := by
      rcases hp with h | h
      · exact yaml_not_json h
      · exact yml_not_json h
    rcases hp with h | h <;> simp [configure_logging, hj, h]
  · simp [configure_logging, h1, h2, h3]

/-- C8 witness: the five dispatch branches at concrete inputs. -/
theorem configure_logging_dispatch_witness :
    (configure_logging ⟨fun _ => some "c", fun _ => some (.nat 1), fun _ => some (.nat 2)⟩
        .none = (.ok (), [.dictConfig KSERVE_LOG_CONFIG])) ∧
    (configure_logging ⟨fun _ => some "c", fun _ => some (.nat 1), fun _ => some (.nat 2)⟩
        (.dict (.nat 7)) = (.ok (), [.dictConfig (.nat 7)])) ∧
    (configure_logging ⟨fun _ => some "c", fun _ => some (.nat 1), fun _ => some (.nat 2)⟩
        (.str "log.json") =
      loadAndApply (fun _ => some "c") (fun _ => some (.nat 1)) "JSONDecodeError" "log.json") ∧
    (configure_logging ⟨fun _ => some "c", fun _ => some (.nat 1), fun _ => some (.nat 2)⟩
        (.str "log.yaml") =
      loadAndApply (fun _ => some "c") (fun _ => some (.nat 2)) "YAMLError" "log.yaml") ∧
    (configure_logging ⟨fun _ => some "c", fun _ => some (.nat 1), fun _ => some (.nat 2)⟩
        (.str "log.yml") =
      loadAndApply (fun _ => some "c") (fun _ => some (.nat 2)) "YAMLError" "log.yml") ∧
    (configure_logging ⟨fun _ => some "c", fun _ => some (.nat 1), fun _ => some (.nat 2)⟩
        (.str "log.conf") = (.ok (), [.fileConfig "log.conf" false])) :=
  have h := configure_logging_dispatch
    ⟨fun _ => some "c", fun _ => some (.nat 1), fun _ => some (.nat 2)⟩
  ⟨h.1, h.2.1 _, h.2.2.1 _ (by rfl), h.2.2.2.1 _ (Or.inl (by rfl)),
    h.2.2.2.1 _ (Or.inr (by rfl)), h.2.2.2.2 _ (by rfl) (by rfl) (by rfl)⟩

/-- C10: `configure_logging` is atomic on failure for file-based inputs —
for a path ending in `".json"`, `".yaml"` or `".yml"` whose file cannot be
opened or parsed, the call raises and applies no configuration at all. -/
theorem configure_logging_atomic_on_failure (env : LogEnv) (p : String) :
    (strEndsWith p ".json" = true →
      (env.readFile p).bind env.parseJson = Option.none →
      ∃ e, configure_logging env (.str p) = (.error e, [])) ∧
    (strEndsWith p ".yaml" = true ∨ strEndsWith p ".yml" = true →
      (env.readFile p).bind env.parseYaml = Option.none →
      ∃ e, configure_logging env (.str p) = (.error e, [])) := by
  constructor
  · intro hp hload
    have hd : configure_logging env (.str p) =
        loadAndApply env.readFile env.parseJson "JSONDecodeError" p := by
      simp [configure_logging, hp]
    rw [hd]
    exact loadAndApply_fail _ _ _ _ hload
  · intro hp hload
    have hj : strEndsWith p ".json" = false := by
      rcases hp with h | h
      · exact yaml_not_json h
      · exact yml_not_json h
    have hd : configure_logging env (.str p) =
        loadAndApply env.readFile env.parseYaml "YAMLError" p := by
      rcases hp with h | h <;> simp [configure_logging, hj, h]
    rw [hd]
    exact loadAndApply_fail _ _ _ _ hload

/-- C10 witness: with a file system on which every open fails, both a
`.json` and a `.yaml` path raise with no configuration applied. -/
theorem configure_logging_atomic_on_failure_witness :
    (∃ e, configure_logging ⟨fun _ => Option.none, fun _ => Option.none, fun _ => Option.none⟩
      (.str "log.json") = (.error e, [])) ∧
    (∃ e, configure_logging ⟨fun _ => Option.none, fun _ => Option.none, fun _ => Option.none⟩
      (.str "log.yaml") = (.error e, [])) :=
  ⟨(configure_logging_atomic_on_failure
      ⟨fun _ => Option.none, fun _ => Option.none, fun _ => Option.none⟩ "log.json").1
      (by rfl) rfl,
   (configure_logging_atomic_on_failure
      ⟨fun _ => Option.none, fun _ => Option.none, fun _ => Option.none⟩ "log.yaml").2
      (Or.inl (by rfl)) rfl⟩

end StorageLogging
